import Mathlib

/-
  Verification development for the Telegram channel media downloader
  (source: modules/messages.js and the DownloadChannel class).

  The JavaScript source is shallowly embedded below:
  * pure computations (eligibility filter, extension parsing, flood-wait
    parsing, rate-limit arithmetic, backoff schedule) become Lean functions;
  * stateful code becomes explicit state passing (RateState, LoopState);
  * the asynchronous page-processing body of DownloadChannel.downloadChannel
    becomes a deterministic event-trace semantics (one event per observable
    effect), linearized at the await points of the single-threaded JS
    event loop;
  * fallible operations return Except.
-/

namespace TgDl

/-! ## Constants (verbatim from the source header of the DownloadChannel file) -/

def MAX_PARALLEL_DOWNLOAD : Nat := 12

def MESSAGE_LIMIT : Nat := 8192

def RATE_LIMIT_DELAY : Nat := 1000

def DOWNLOAD_DELAY : Nat := 500

def MAX_RETRIES : Nat := 3

def BACKOFF_BASE : Nat := 1000

/-! ## Data model -/

/-- MediaDescriptor variants relevant to downloadMessageMedia: a webpage
(with an optional url and the webpage object id), a poll, or any other
plain media attachment (photo, document, ...). -/
inductive MediaDesc where
  | webpage (url : Option String) (wid : Nat)
  | poll
  | plain
deriving DecidableEq, Repr

/-- A Telegram message: its id and optional media attachment. -/
structure Message where
  id : Nat
  media : Option MediaDesc
deriving DecidableEq, Repr

/-- `hasMedia(message)`: `Boolean(message.media)`. -/
def hasMedia (m : Message) : Bool := m.media.isSome

/-! ## wait: `this.wait(ms)` sleeps `ms + Math.random() * 1000` milliseconds.
`waitTotal ms jitter` is the total sleep time for a given jitter draw;
call sites constrain `jitter < 1000`. -/

def waitTotal (ms jitter : Nat) : Nat := ms + jitter

/-! ## RateLimiter: `checkRateLimit()` -/

/-- The instance fields `this.requestCount` and `this.lastRequestTime`. -/
structure RateState where
  requestCount : Nat
  lastRequestTime : Int
deriving DecidableEq, Repr

/-- One call of `checkRateLimit()` at clock time `now`.  Returns the updated
state and the `ms` argument passed to `this.wait` (0 when no wait happens).
Mirrors the source: if `requestCount > 10 && now - lastRequestTime < 60000`
it waits 60000 ms and resets the counter; afterwards it always records
`lastRequestTime = now` and increments the counter. -/
def checkRateLimit (s : RateState) (now : Int) : RateState × Nat :=
  let timeSinceLastRequest : Int := now - s.lastRequestTime
  let afterGuard :=
    if s.requestCount > 10 ∧ timeSinceLastRequest < 60000 then
      ({ s with requestCount := 0 }, 60000)
    else (s, 0)
  ({ requestCount := afterGuard.1.requestCount + 1, lastRequestTime := now },
   afterGuard.2)

/-- Run the gate over a sequence of call times, starting from the
constructor state `requestCount = 0, lastRequestTime = 0`. -/
def runGate : RateState → List Int → List (RateState × Nat)
  | _, [] => []
  | s, t :: ts =>
    let r := checkRateLimit s t
    r :: runGate r.1 ts

def gateDelays (times : List Int) : List Nat :=
  (runGate { requestCount := 0, lastRequestTime := 0 } times).map Prod.snd

/-- Number of earlier calls issued within the trailing 60-second window of
call `i` (the quantity the spec claims the gate tests). -/
def windowCount (times : List Int) (i : Nat) : Nat :=
  ((times.take i).filter (fun u => decide (times.getD i 0 - u < 60000))).length

/-- Twelve gate calls spaced 30 s apart: by call index 11 the cumulative
counter exceeds 10 although only one earlier call lies in the trailing
60-second window. -/
def spacedTimes : List Int := (List.range 12).map (fun k => 30000 * (k : Int))

/-! ## BackoffRetrier: `retryWithBackoff(fn, retries)` -/

/-- Result of a `retryWithBackoff` run: the value returned or error thrown
(`none` only when the loop bound is exhausted without a return, which
cannot happen from the public entry), the list of `ms` arguments passed to
`this.wait` between attempts, and the number of attempts made. -/
structure RetryRun (E A : Type) where
  result : Option (Except E A)
  delays : List Nat
  attempts : Nat
deriving Repr

/-- The `for (let i = 0; i < retries; i++)` loop of `retryWithBackoff`,
starting at iteration `i` with `fuel` iterations remaining.
`outcomes k` is the result of the k-th invocation of `fn` (a thrown error
or a returned value). On failure at the last iteration the error is
re-thrown unchanged; otherwise the loop waits `BACKOFF_BASE * 2 ^ i` ms
(plus jitter, see `waitTotal`) and retries. -/
def retryFrom (outcomes : Nat → Except E A) (retries i : Nat) :
    Nat → RetryRun E A
  | 0 => { result := none, delays := [], attempts := 0 }
  | Nat.succ fuel =>
    match outcomes i with
    | Except.ok a => { result := some (Except.ok a), delays := [], attempts := 1 }
    | Except.error e =>
      if i = retries - 1 then
        { result := some (Except.error e), delays := [], attempts := 1 }
      else
        let r := retryFrom outcomes retries (i + 1) fuel
        { result := r.result
          delays := BACKOFF_BASE * 2 ^ i :: r.delays
          attempts := r.attempts + 1 }

/-- `retryWithBackoff(fn, retries)`. -/
def retryWithBackoff (outcomes : Nat → Except E A) (retries : Nat) :
    RetryRun E A :=
  retryFrom outcomes retries 0 retries

/-! ## Flood-wait recovery: the catch block of `downloadChannel` -/

def isPrefixOfL : List Char → List Char → Bool
  | [], _ => true
  | _ :: _, [] => false
  | a :: as, b :: bs => a = b && isPrefixOfL as bs

/-- `haystack.includes(pattern)` on character lists. -/
def containsSub : List Char → List Char → Bool
  | [], pat => pat.isEmpty
  | h :: t, pat => isPrefixOfL pat (h :: t) || containsSub t pat

/-- `err.message.includes("FLOOD_WAIT")`. -/
def includesFloodWait (msg : String) : Bool :=
  containsSub msg.data "FLOOD_WAIT".data

/-- `message.match(/\d+/)?.[0]`: the first maximal run of digits. -/
def firstDigitRun : List Char → Option (List Char)
  | [] => none
  | c :: cs =>
    if c.isDigit then some (c :: cs.takeWhile Char.isDigit)
    else firstDigitRun cs

/-- `parseInt` on a digit string. -/
def digitsToNat (ds : List Char) : Nat :=
  ds.foldl (fun acc c => acc * 10 + (c.toNat - 48)) 0

/-- `parseInt(err.message.match(/\d+/)?.[0] || "300")`: the wait duration
in seconds extracted from a flood-wait error message, 300 by default. -/
def floodWaitSeconds (msg : String) : Nat :=
  match firstDigitRun msg.data with
  | some ds => digitsToNat ds
  | none => 300

/-- What the catch block of `downloadChannel` does with an escaped error. -/
inductive CatchOutcome where
  | retrySamePage (waitMs : Nat) (offsetMsgId : Nat)
  | rethrow (msg : String)
deriving DecidableEq, Repr

/-- The catch block of `downloadChannel(client, channelId, offsetMsgId)`:
if the error message includes "FLOOD_WAIT", wait
`parseInt(firstNumber || "300") * 1000` ms and re-invoke
`downloadChannel` with the same `offsetMsgId`; otherwise re-throw. -/
def downloadChannelCatch (errMsg : String) (offsetMsgId : Nat) : CatchOutcome :=
  if includesFloodWait errMsg then
    CatchOutcome.retrySamePage (floodWaitSeconds errMsg * 1000) offsetMsgId
  else CatchOutcome.rethrow errMsg

/-! ## Eligibility: `canDownload(message)` -/

/-- The path/classification helpers consumed from `utils/helper.js`
(not part of this repository's core source): they derive the media type
tag and target path of a message and test file existence there.  They are
abstract parameters of the eligibility filter. -/
structure HelperEnv where
  getMediaType : Message → String
  getMediaPath : Message → String → String
  checkFileExist : Message → String → Bool

/-- `path.basename`: the portion after the last path separator. -/
def basenameChars (p : List Char) : List Char :=
  (p.reverse.takeWhile (fun c => c != '/')).reverse

/-- `path.extname`: from the last '.' of the basename to the end, empty
when the basename has no '.' past its first character. -/
def extnameChars (p : List Char) : List Char :=
  let base := basenameChars p
  let afterDot := (base.reverse.takeWhile (fun c => c != '.')).reverse
  if afterDot.length + 1 < base.length then '.' :: afterDot else []

/-- `.replace(".", "")`: drop the first '.' of the string. -/
def removeFirstDot : List Char → List Char
  | [] => []
  | c :: cs => if c = '.' then cs else c :: removeFirstDot cs

/-- `path.extname(mediaPath).toLowerCase().replace(".", "")`. -/
def extensionOf (p : String) : String :=
  String.mk (removeFirstDot ((extnameChars p.data).map Char.toLower))

/-- Modelled from the spec: the allow-set `this.downloadableFiles` is
configured by `downloadOptionInput` in the input helper, which is not part
of this repository's source.  Per the spec wording it is an allow-set of
media-type/extension keys (possibly with the wildcard key "all");
`downloadableFiles?.[k]` is the membership test, and the whole object may
be absent (`none`), in which case every lookup is falsy. -/
def allowLookup (files : Option (List String)) (key : String) : Bool :=
  match files with
  | none => false
  | some ks => ks.contains key

/-- The per-channel configuration held on the DownloadChannel instance:
helper functions, `this.outputFolder`, `this.downloadableFiles`. -/
structure ChannelCfg where
  helpers : HelperEnv
  outputFolder : String
  downloadableFiles : Option (List String)

/-- `canDownload(message)` translated line by line from the source:
no media short-circuits to false; otherwise
`allowed = files?.[mediaType] || files?.[extension] || files?.all` and the
result is `allowed && !fileExists`. -/
def canDownload (cfg : ChannelCfg) (m : Message) : Bool :=
  if !(hasMedia m) then false
  else
    let mediaType := cfg.helpers.getMediaType m
    let mediaPath := cfg.helpers.getMediaPath m cfg.outputFolder
    let fileExists := cfg.helpers.checkFileExist m cfg.outputFolder
    let ext := extensionOf mediaPath
    let allowed := allowLookup cfg.downloadableFiles mediaType
      || allowLookup cfg.downloadableFiles ext
      || allowLookup cfg.downloadableFiles "all"
    allowed && !fileExists

/-! ## Public operations of modules/messages.js -/

/-- The remote client's fetch capability, abstract: one page fetch
(`client.getMessages(channelId, {limit, offsetId})`) and one detail fetch
(`client.getMessages(channelId, {ids})`), each possibly failing. -/
structure FetchEnv where
  getPage : Nat → Nat → Except String (List Message)
  getByIds : List Nat → Except String (List Message)

/-- JS truthiness of the `channelId` argument: `!channelId` holds for an
absent id and for the number 0. -/
def jsFalsyChan : Option Int → Bool
  | none => true
  | some c => c = 0

/-- JS truthiness of the `messageIds` argument: only an absent value is
falsy (an array, even empty, is truthy). -/
def jsFalsyIds : Option (List Nat) → Bool
  | none => true
  | some _ => false

/-- `getMessages(client, channelId, limit, offsetId)`: throws immediately
when `!client || !channelId`, before consulting the remote client at all;
otherwise forwards the fetch, re-wrapping a fetch failure's message. -/
def getMessages (env : FetchEnv) (client : Bool) (channelId : Option Int)
    (limit offsetId : Nat) : Except String (List Message) :=
  if !client || jsFalsyChan channelId then
    Except.error "Client and channelId are required"
  else
    match env.getPage limit offsetId with
    | Except.ok r => Except.ok r
    | Except.error e => Except.error ("Failed to get messages: " ++ e)

/-- `getMessageDetail(client, channelId, messageIds)`: throws immediately
when `!client || !channelId || !messageIds`; otherwise forwards. -/
def getMessageDetail (env : FetchEnv) (client : Bool) (channelId : Option Int)
    (messageIds : Option (List Nat)) : Except String (List Message) :=
  match messageIds with
  | none => Except.error "Client, channelId, and messageIds are required"
  | some ids =>
    if !client || jsFalsyChan channelId then
      Except.error "Client, channelId, and messageIds are required"
    else
      match env.getByIds ids with
      | Except.ok r => Except.ok r
      | Except.error e => Except.error ("Failed to get message details: " ++ e)

/-- Filesystem / transport effects consumed by `downloadMessageMedia`:
whether `fs.writeFileSync` succeeds at a path and whether
`client.downloadMedia` succeeds for a message and output path. -/
structure MediaEnv where
  writeOk : String → Bool
  downloadOk : Message → String → Bool

/-- `path.join(mediaPath, "../<id>_url.txt")`. -/
def sidecarUrlPath (mediaPath : String) (msgId : Nat) : String :=
  mediaPath ++ "/../" ++ toString msgId ++ "_url.txt"

/-- `path.join(mediaPath, "../<webpage id>_image.jpeg")`. -/
def webpageImagePath (mediaPath : String) (wid : Nat) : String :=
  mediaPath ++ "/../" ++ toString wid ++ "_image.jpeg"

/-- `path.join(mediaPath, "../<id>_poll.json")`. -/
def sidecarPollPath (mediaPath : String) (msgId : Nat) : String :=
  mediaPath ++ "/../" ++ toString msgId ++ "_poll.json"

/-- The try-block body of `downloadMessageMedia(client, message, mediaPath)`:
missing arguments and a missing media attachment return false (after
logging); a webpage media writes a url sidecar (when a url is present) and
redirects the target path to the webpage image; a poll media writes a poll
sidecar; then `client.downloadMedia` runs and true is returned.  Any
failing effect throws (Except.error). -/
def downloadMessageMediaBody (env : MediaEnv) (client : Bool)
    (message : Option Message) (mediaPath : Option String) :
    Except String Bool :=
  if !client || message.isNone || mediaPath.isNone then
    Except.ok false
  else
    match message, mediaPath with
    | some msg, some mp0 =>
      (match msg.media with
       | none => Except.ok false
       | some md =>
         let afterWebpage : Except String String :=
           match md with
           | MediaDesc.webpage url wid =>
             (match url with
              | some _ =>
                if env.writeOk (sidecarUrlPath mp0 msg.id) then
                  Except.ok (webpageImagePath mp0 wid)
                else Except.error "write url sidecar failed"
              | none => Except.ok (webpageImagePath mp0 wid))
           | _ => Except.ok mp0
         match afterWebpage with
         | Except.error e => Except.error e
         | Except.ok mp1 =>
           let afterPoll : Except String Unit :=
             match md with
             | MediaDesc.poll =>
               if env.writeOk (sidecarPollPath mp1 msg.id) then Except.ok ()
               else Except.error "write poll sidecar failed"
             | _ => Except.ok ()
           match afterPoll with
           | Except.error e => Except.error e
           | Except.ok _ =>
             if env.downloadOk msg mp1 then Except.ok true
             else Except.error "downloadMedia failed")
    | _, _ => Except.ok false

/-- `downloadMessageMedia` as callers observe it: the whole body runs
inside `try { ... } catch (err) { logger.error(...); return false; }`, so
every thrown error is converted into the return value false. -/
def downloadMessageMedia (env : MediaEnv) (client : Bool)
    (message : Option Message) (mediaPath : Option String) :
    Except String Bool :=
  match downloadMessageMediaBody env client message mediaPath with
  | Except.ok b => Except.ok b
  | Except.error _ => Except.ok false

/-! ## Trace semantics of the page-processing body of `downloadChannel`

`processPage` models `downloadChannel(client, channelId, offsetMsgId)` from
the empty-page check through the tail recursive call, given the fetched
page `messages` and its detail records `details`.  Each observable effect
becomes one event, in the order the single-threaded JS event loop performs
them.  A download task starts running when its promise is created
(`downloadQueue.push`) and is observed settled at the `Promise.all` join;
task bodies never reject — `downloadMessageMedia` absorbs every failure
into a boolean (theorem C9 below) and the surrounding counter increments
cannot throw — so `Promise.all` resolves only after every queued task has
settled.  `success msgId` is the boolean each task's download reports. -/

inductive Ev where
  | taskStart (msgId : Nat)
  | taskSettle (msgId : Nat) (result : Bool)
  | skipMsg (msgId : Nat)
  | recordMessages (ids : List Nat)
  | persistCursor (offsetId : Nat)
  | progressReport (batchDownloaded batchSkipped : Nat)
  | sleep (ms : Nat)
  | recurse (offsetId : Nat)
  | finished
deriving DecidableEq, Repr

/-- The mutable loop state of one `downloadChannel` invocation: the
`downloadQueue` (ids of started, unsettled tasks), the instance counters
`this.totalDownloaded` and `this.skippedFiles`, and the local counters
`currentBatchDownloaded` / `currentBatchSkipped`. -/
structure LoopState where
  queue : List Nat
  totalDownloaded : Nat
  skippedFiles : Nat
  batchDownloaded : Nat
  batchSkipped : Nat
deriving DecidableEq, Repr

/-- Settle events for the queued tasks, carrying each download's result. -/
def settleEvents (success : Nat → Bool) (q : List Nat) : List Ev :=
  q.map (fun i => Ev.taskSettle i (success i))

/-- `downloadQueue.push(...)`. -/
def pushTask (s : LoopState) (i : Nat) : LoopState :=
  { s with queue := s.queue ++ [i] }

/-- The skip branch: `this.skippedFiles++; currentBatchSkipped++`. -/
def skipState (s : LoopState) : LoopState :=
  { s with skippedFiles := s.skippedFiles + 1, batchSkipped := s.batchSkipped + 1 }

/-- Settling the queue at a `Promise.all` join: each task's completion
increments `this.totalDownloaded` and `currentBatchDownloaded` (regardless
of the boolean `downloadMessageMedia` returned), and the queue empties. -/
def flushState (s : LoopState) : LoopState :=
  { s with queue := []
           totalDownloaded := s.totalDownloaded + s.queue.length
           batchDownloaded := s.batchDownloaded + s.queue.length }

/-- The enqueue part of the `for (const msg of details)` body: an
eligible message's download task is created and queued; a message with
media that is not eligible is counted as skipped; a message without media
is ignored. -/
def enqueuePhase (cfg : ChannelCfg) (m : Message) (s : LoopState) :
    List Ev × LoopState :=
  if canDownload cfg m then ([Ev.taskStart m.id], pushTask s m.id)
  else if hasMedia m then ([Ev.skipMsg m.id], skipState s)
  else ([], s)

/-- The batch barrier at the end of the loop body:
`if (downloadQueue.length >= MAX_PARALLEL_DOWNLOAD) { await Promise.all(..);
downloadQueue.length = 0; await this.wait(RATE_LIMIT_DELAY); }`. -/
def flushPhase (success : Nat → Bool) (s : LoopState) : List Ev × LoopState :=
  if MAX_PARALLEL_DOWNLOAD ≤ s.queue.length then
    (settleEvents success s.queue ++ [Ev.sleep RATE_LIMIT_DELAY], flushState s)
  else ([], s)

/-- The whole `for (const msg of details)` loop. -/
def procLoop (cfg : ChannelCfg) (success : Nat → Bool) :
    List Message → LoopState → List Ev × LoopState
  | [], s => ([], s)
  | m :: rest, s =>
    ((enqueuePhase cfg m s).1 ++
       (flushPhase success (enqueuePhase cfg m s).2).1 ++
       (procLoop cfg success rest (flushPhase success (enqueuePhase cfg m s).2).2).1,
     (procLoop cfg success rest (flushPhase success (enqueuePhase cfg m s).2).2).2)

/-- `messages[messages.length - 1].id`, the cursor persisted for the page. -/
def lastMsgId (messages : List Message) : Nat :=
  match messages.getLast? with
  | some m => m.id
  | none => 0

/-- The final `if (downloadQueue.length > 0) await Promise.all(downloadQueue)`
after the loop. -/
def finalFlush (success : Nat → Bool) (s : LoopState) : List Ev × LoopState :=
  if 0 < s.queue.length then (settleEvents success s.queue, flushState s)
  else ([], s)

/-- The loop state at entry of one `downloadChannel` invocation: empty
download queue, instance counters carried over from earlier pages, batch
counters zeroed. -/
def startState (t0 k0 : Nat) : LoopState :=
  { queue := [], totalDownloaded := t0, skippedFiles := k0
    batchDownloaded := 0, batchSkipped := 0 }

/-- One invocation of `downloadChannel` after the page fetch, starting from
instance counters `t0` (totalDownloaded) and `k0` (skippedFiles):
empty page → progress report and return; otherwise run the download loop,
settle the remaining queue, append the page to the export log
(`recordMessages(details)`), persist the cursor
(`updateLastSelection({messageOffsetId: last id})`), report progress,
wait `RATE_LIMIT_DELAY`, and recurse with the advanced cursor. -/
def processPage (cfg : ChannelCfg) (success : Nat → Bool) (t0 k0 : Nat)
    (messages details : List Message) : List Ev × LoopState :=
  if messages.length = 0 then
    ([Ev.progressReport 0 0, Ev.finished], startState t0 k0)
  else
    ((procLoop cfg success details (startState t0 k0)).1 ++
       (finalFlush success (procLoop cfg success details (startState t0 k0)).2).1 ++
       [Ev.recordMessages (details.map Message.id),
        Ev.persistCursor (lastMsgId messages),
        Ev.progressReport
          (finalFlush success
            (procLoop cfg success details (startState t0 k0)).2).2.batchDownloaded
          (finalFlush success
            (procLoop cfg success details (startState t0 k0)).2).2.batchSkipped,
        Ev.sleep RATE_LIMIT_DELAY,
        Ev.recurse (lastMsgId messages)],
     (finalFlush success (procLoop cfg success details (startState t0 k0)).2).2)

/-! ### Trace observations -/

/-- Ids of tasks started, in order. -/
def startedIds : List Ev → List Nat
  | [] => []
  | Ev.taskStart i :: t => i :: startedIds t
  | _ :: t => startedIds t

/-- Ids of tasks settled, in order. -/
def settledIds : List Ev → List Nat
  | [] => []
  | Ev.taskSettle i _ :: t => i :: settledIds t
  | _ :: t => settledIds t

/-- The export-log, cursor and task-start events of a trace (the effects
the empty-page path must not perform). -/
def pageEffects : List Ev → List Ev
  | [] => []
  | Ev.taskStart i :: t => Ev.taskStart i :: pageEffects t
  | Ev.recordMessages ids :: t => Ev.recordMessages ids :: pageEffects t
  | Ev.persistCursor c :: t => Ev.persistCursor c :: pageEffects t
  | _ :: t => pageEffects t

/-- Task events only, with results erased. -/
inductive TEv where
  | start (i : Nat)
  | settle (i : Nat)
deriving DecidableEq, Repr

def taskEvs : List Ev → List TEv
  | [] => []
  | Ev.taskStart i :: t => TEv.start i :: taskEvs t
  | Ev.taskSettle i _ :: t => TEv.settle i :: taskEvs t
  | _ :: t => taskEvs t

def countStartsT : List TEv → Nat
  | [] => 0
  | TEv.start _ :: t => countStartsT t + 1
  | TEv.settle _ :: t => countStartsT t

def countSettlesT : List TEv → Nat
  | [] => 0
  | TEv.settle _ :: t => countSettlesT t + 1
  | TEv.start _ :: t => countSettlesT t

/-- Well-scheduled task traces: `Sched q q' t` states that, starting with
the in-flight queue `q`, the task events `t` keep at most
`MAX_PARALLEL_DOWNLOAD` tasks in flight, settle tasks only as whole-queue
barriers (every in-flight task settles before any later task starts), and
end with in-flight queue `q'`. -/
inductive Sched : List Nat → List Nat → List TEv → Prop
  | done (q : List Nat) (h : q.length ≤ MAX_PARALLEL_DOWNLOAD) : Sched q q []
  | start (q q' : List Nat) (i : Nat) (t : List TEv)
      (h : q.length + 1 ≤ MAX_PARALLEL_DOWNLOAD)
      (ht : Sched (q ++ [i]) q' t) : Sched q q' (TEv.start i :: t)
  | flush (q q' : List Nat) (t : List TEv)
      (h : q.length ≤ MAX_PARALLEL_DOWNLOAD)
      (ht : Sched [] q' t) : Sched q q' (q.map TEv.settle ++ t)

/-! ## Helper lemmas about traces -/

theorem startedIds_append (a b : List Ev) :
    startedIds (a ++ b) = startedIds a ++ startedIds b := by
  induction a with
  | nil => rfl
  | cons e t ih => cases e <;> simp [startedIds, ih]

theorem settledIds_append (a b : List Ev) :
    settledIds (a ++ b) = settledIds a ++ settledIds b := by
  induction a with
  | nil => rfl
  | cons e t ih => cases e <;> simp [settledIds, ih]

theorem taskEvs_append (a b : List Ev) :
    taskEvs (a ++ b) = taskEvs a ++ taskEvs b := by
  induction a with
  | nil => rfl
  | cons e t ih => cases e <;> simp [taskEvs, ih]

theorem settledIds_settleEvents (success : Nat → Bool) (q : List Nat) :
    settledIds (settleEvents success q) = q := by
  induction q with
  | nil => rfl
  | cons i t ih => simpa [settleEvents, settledIds] using ih

theorem startedIds_settleEvents (success : Nat → Bool) (q : List Nat) :
    startedIds (settleEvents success q) = [] := by
  induction q with
  | nil => rfl
  | cons i t ih => simpa [settleEvents, startedIds] using ih

theorem taskEvs_settleEvents (success : Nat → Bool) (q : List Nat) :
    taskEvs (settleEvents success q) = q.map TEv.settle := by
  induction q with
  | nil => rfl
  | cons i t ih => simpa [settleEvents, taskEvs] using ih

theorem procLoop_ids (cfg : ChannelCfg) (success : Nat → Bool) :
    ∀ (details : List Message) (s : LoopState),
      settledIds (procLoop cfg success details s).1 ++
          (procLoop cfg success details s).2.queue =
        s.queue ++ startedIds (procLoop cfg success details s).1
  | [], s => by simp [procLoop, startedIds, settledIds]
  | m :: rest, s => by
    have ih := fun s' => procLoop_ids cfg success rest s'
    by_cases hc : canDownload cfg m = true
    · by_cases hq : MAX_PARALLEL_DOWNLOAD ≤ s.queue.length + 1
      · simp [procLoop, enqueuePhase, flushPhase, pushTask, flushState, hc, hq,
              startedIds_append, settledIds_append, settledIds_settleEvents,
              startedIds_settleEvents, startedIds, settledIds, ih]
      · simp [procLoop, enqueuePhase, flushPhase, pushTask, hc, hq,
              startedIds_append, settledIds_append, startedIds, settledIds, ih]
    · by_cases hm : hasMedia m = true <;>
      · by_cases hq : MAX_PARALLEL_DOWNLOAD ≤ s.queue.length
        · simp [procLoop, enqueuePhase, flushPhase, skipState, flushState, hc, hm, hq,
                startedIds_append, settledIds_append, settledIds_settleEvents,
                startedIds_settleEvents, startedIds, settledIds, ih]
        · simp [procLoop, enqueuePhase, flushPhase, skipState, hc, hm, hq,
                startedIds_append, settledIds_append, startedIds, settledIds, ih]

theorem procLoop_starts (cfg : ChannelCfg) (success : Nat → Bool) :
    ∀ (details : List Message) (s : LoopState),
      startedIds (procLoop cfg success details s).1 =
        (details.filter (fun m => canDownload cfg m)).map Message.id
  | [], s => by simp [procLoop, startedIds]
  | m :: rest, s => by
    have ih := fun s' => procLoop_starts cfg success rest s'
    by_cases hc : canDownload cfg m = true
    · by_cases hq : MAX_PARALLEL_DOWNLOAD ≤ s.queue.length + 1
      · simp [procLoop, enqueuePhase, flushPhase, pushTask, flushState, hc, hq,
              startedIds_append, startedIds_settleEvents, startedIds, ih]
      · simp [procLoop, enqueuePhase, flushPhase, pushTask, hc, hq,
              startedIds_append, startedIds, ih]
    · by_cases hm : hasMedia m = true <;>
      · by_cases hq : MAX_PARALLEL_DOWNLOAD ≤ s.queue.length
        · simp [procLoop, enqueuePhase, flushPhase, skipState, flushState, hc, hm, hq,
                startedIds_append, startedIds_settleEvents, startedIds, ih]
        · simp [procLoop, enqueuePhase, flushPhase, skipState, hc, hm, hq,
                startedIds_append, startedIds, ih]

theorem procLoop_counters (cfg : ChannelCfg) (success : Nat → Bool) :
    ∀ (details : List Message) (s : LoopState),
      (procLoop cfg success details s).2.totalDownloaded +
          (procLoop cfg success details s).2.queue.length =
        s.totalDownloaded + s.queue.length +
          (startedIds (procLoop cfg success details s).1).length ∧
      (procLoop cfg success details s).2.batchDownloaded +
          (procLoop cfg success details s).2.queue.length =
        s.batchDownloaded + s.queue.length +
          (startedIds (procLoop cfg success details s).1).length
  | [], s => by simp [procLoop, startedIds]
  | m :: rest, s => by
    obtain ⟨ih1, ih2⟩ :=
      procLoop_counters cfg success rest (flushPhase success (enqueuePhase cfg m s).2).2
    by_cases hc : canDownload cfg m = true
    · by_cases hq : MAX_PARALLEL_DOWNLOAD ≤ s.queue.length + 1
      · simp [procLoop, enqueuePhase, flushPhase, pushTask, flushState, hc, hq,
              startedIds_append, startedIds_settleEvents, startedIds] at ih1 ih2 ⊢
        omega
      · simp [procLoop, enqueuePhase, flushPhase, pushTask, hc, hq,
              startedIds_append, startedIds] at ih1 ih2 ⊢
        omega
    · by_cases hm : hasMedia m = true <;>
      · by_cases hq : MAX_PARALLEL_DOWNLOAD ≤ s.queue.length
        · simp [procLoop, enqueuePhase, flushPhase, skipState, flushState, hc, hm, hq,
                startedIds_append, startedIds_settleEvents, startedIds] at ih1 ih2 ⊢
          omega
        · simp [procLoop, enqueuePhase, flushPhase, skipState, hc, hm, hq,
                startedIds_append, startedIds] at ih1 ih2 ⊢
          omega

theorem finalFlush_spec (success : Nat → Bool) (s : LoopState) :
    startedIds (finalFlush success s).1 = [] ∧
    settledIds (finalFlush success s).1 = s.queue ∧
    taskEvs (finalFlush success s).1 = s.queue.map TEv.settle ∧
    (finalFlush success s).2.queue = [] ∧
    (finalFlush success s).2.totalDownloaded = s.totalDownloaded + s.queue.length ∧
    (finalFlush success s).2.batchDownloaded = s.batchDownloaded + s.queue.length ∧
    (finalFlush success s).2.batchSkipped = s.batchSkipped := by
  unfold finalFlush flushState
  split
  · simp [startedIds_settleEvents, settledIds_settleEvents, taskEvs_settleEvents]
  · rename_i hpos
    have hq : s.queue = [] := by
      have := Nat.eq_zero_of_not_pos hpos
      simpa [List.length_eq_zero] using this
    simp [hq, startedIds, settledIds, taskEvs]

theorem sched_append {q q' q2 : List Nat} {t t2 : List TEv}
    (h1 : Sched q q' t) (h2 : Sched q' q2 t2) : Sched q q2 (t ++ t2) := by
  induction h1 with
  | done q h => simpa using h2
  | start qa qb i ta h ht ih => exact Sched.start qa q2 i (ta ++ t2) h (ih h2)
  | flush qa qb ta h ht ih =>
    rw [List.append_assoc]
    exact Sched.flush qa q2 (ta ++ t2) h (ih h2)

theorem counts_of_settle_map :
    ∀ (p : List TEv) (q : List Nat) (c : List TEv),
      q.map TEv.settle = p ++ c →
      countSettlesT p = p.length ∧ countStartsT p = 0
  | [], _, _, _ => by simp [countSettlesT, countStartsT]
  | e :: p, q, c, h => by
    cases q with
    | nil => simp at h
    | cons i q =>
      simp only [List.map_cons, List.cons_append, List.cons.injEq] at h
      obtain ⟨he, hrest⟩ := h
      obtain ⟨h1, h2⟩ := counts_of_settle_map p q c hrest
      subst he
      simp [countSettlesT, countStartsT, h1, h2]

theorem countStartsT_append (a b : List TEv) :
    countStartsT (a ++ b) = countStartsT a + countStartsT b := by
  induction a with
  | nil => simp [countStartsT]
  | cons e t ih =>
    cases e with
    | start i => simp [countStartsT, ih]; omega
    | settle i => simp [countStartsT, ih]

theorem countSettlesT_append (a b : List TEv) :
    countSettlesT (a ++ b) = countSettlesT a + countSettlesT b := by
  induction a with
  | nil => simp [countSettlesT]
  | cons e t ih =>
    cases e with
    | start i => simp [countSettlesT, ih]
    | settle i => simp [countSettlesT, ih]; omega

theorem countStartsT_map_settle (q : List Nat) :
    countStartsT (q.map TEv.settle) = 0 := by
  induction q with
  | nil => rfl
  | cons i t ih => simpa [countStartsT] using ih

theorem countSettlesT_map_settle (q : List Nat) :
    countSettlesT (q.map TEv.settle) = q.length := by
  induction q with
  | nil => rfl
  | cons i t ih => simpa [countSettlesT] using ih

theorem sched_bound {q q' : List Nat} {t : List TEv} (h : Sched q q' t) :
    ∀ p r, t = p ++ r →
      q.length + countStartsT p ≤ countSettlesT p + MAX_PARALLEL_DOWNLOAD ∧
      countSettlesT p ≤ q.length + countStartsT p := by
  induction h with
  | done qa h =>
    intro p r hpr
    obtain ⟨hp, hr⟩ := List.append_eq_nil.mp hpr.symm
    subst hp
    simp [countStartsT, countSettlesT]
    exact h
  | start qa qb i ta h ht ih =>
    intro p r hpr
    cases p with
    | nil =>
      simp [countStartsT, countSettlesT]
      omega
    | cons e p =>
      simp only [List.cons_append, List.cons.injEq] at hpr
      obtain ⟨he, hrest⟩ := hpr
      subst he
      obtain ⟨h1, h2⟩ := ih p r hrest
      simp only [countStartsT, countSettlesT] at h1 h2 ⊢
      simp only [List.length_append, List.length_cons, List.length_nil] at h1 h2
      omega
  | flush qa qb ta h ht ih =>
    intro p r hpr
    rcases List.append_eq_append_iff.mp hpr with ⟨u, hu1, hu2⟩ | ⟨u, hu1, hu2⟩
    · -- p extends past the settle block: p = qa.map settle ++ u
      subst hu1
      obtain ⟨h1, h2⟩ := ih u r hu2
      simp only [countStartsT_append, countSettlesT_append,
        countStartsT_map_settle, countSettlesT_map_settle, List.length_nil] at h1 h2 ⊢
      omega
    · -- p is a prefix of the settle block
      obtain ⟨h1, h2⟩ := counts_of_settle_map p qa u hu1
      have hlen : qa.length = p.length + u.length := by
        have := congrArg List.length hu1
        simpa using this
      simp only [h1, h2]
      omega

theorem pushTask_queue (s : LoopState) (i : Nat) :
    (pushTask s i).queue = s.queue ++ [i] := rfl

theorem skipState_queue (s : LoopState) : (skipState s).queue = s.queue := rfl

theorem flushState_queue (s : LoopState) : (flushState s).queue = [] := rfl

theorem procLoop_sched (cfg : ChannelCfg) (success : Nat → Bool) :
    ∀ (details : List Message) (s : LoopState),
      s.queue.length < MAX_PARALLEL_DOWNLOAD →
      Sched s.queue (procLoop cfg success details s).2.queue
          (taskEvs (procLoop cfg success details s).1) ∧
      (procLoop cfg success details s).2.queue.length < MAX_PARALLEL_DOWNLOAD
  | [], s => fun hq => by
    constructor
    · simpa [procLoop, taskEvs] using Sched.done s.queue (Nat.le_of_lt hq)
    · simpa [procLoop] using hq
  | m :: rest, s => fun hlen => by
    by_cases hc : canDownload cfg m = true
    · by_cases hq : MAX_PARALLEL_DOWNLOAD ≤ s.queue.length + 1
      · obtain ⟨ihs, ihlen⟩ := procLoop_sched cfg success rest
          (flushState (pushTask s m.id))
          (by simp [flushState_queue, MAX_PARALLEL_DOWNLOAD])
        simp only [procLoop, enqueuePhase, flushPhase, hc, if_true, pushTask_queue,
          List.length_append, List.length_cons, List.length_nil, Nat.zero_add,
          hq, if_pos, taskEvs, taskEvs_append, taskEvs_settleEvents,
          List.append_nil, List.nil_append, List.cons_append] at ihs ihlen ⊢
        refine ⟨?_, ihlen⟩
        refine Sched.start s.queue _ m.id _ (by omega) ?_
        exact Sched.flush (s.queue ++ [m.id]) _ _ (by simp; omega) ihs
      · obtain ⟨ihs, ihlen⟩ := procLoop_sched cfg success rest
          (pushTask s m.id) (by simp [pushTask_queue]; omega)
        simp only [procLoop, enqueuePhase, flushPhase, hc, if_true, pushTask_queue,
          List.length_append, List.length_cons, List.length_nil, Nat.zero_add,
          hq, if_neg, if_false, taskEvs, taskEvs_append,
          List.append_nil, List.nil_append, List.cons_append] at ihs ihlen ⊢
        refine ⟨?_, ihlen⟩
        exact Sched.start s.queue _ m.id _ (by omega) ihs
    · have hq : ¬ MAX_PARALLEL_DOWNLOAD ≤ s.queue.length := Nat.not_le.mpr hlen
      by_cases hm : hasMedia m = true
      · obtain ⟨ihs, ihlen⟩ := procLoop_sched cfg success rest (skipState s)
          (by simpa [skipState_queue] using hlen)
        simp [procLoop, enqueuePhase, flushPhase, hc, hm, hq, skipState_queue,
          taskEvs, taskEvs_append] at ihs ihlen ⊢
        exact ⟨ihs, ihlen⟩
      · obtain ⟨ihs, ihlen⟩ := procLoop_sched cfg success rest s hlen
        simp [procLoop, enqueuePhase, flushPhase, hc, hm, hq,
          taskEvs, taskEvs_append] at ihs ihlen ⊢
        exact ⟨ihs, ihlen⟩

/-! ## Claim theorems -/

/-- C2: for every failure whose message contains "FLOOD_WAIT" escaping a
page's processing, `downloadChannel` waits `floodWaitSeconds * 1000` ms
(at least that long, whatever the jitter) where `floodWaitSeconds` is the
number parsed from the error message — 300 when no number can be parsed —
and re-invokes the page fetch with the identical cursor `offsetMsgId`;
any failure not matching the flood marker is re-thrown unchanged. -/
theorem C2_flood_wait_recovery (errMsg : String) (offsetMsgId : Nat) :
    (includesFloodWait errMsg = true →
      downloadChannelCatch errMsg offsetMsgId =
        CatchOutcome.retrySamePage (floodWaitSeconds errMsg * 1000) offsetMsgId ∧
      ∀ jitter, floodWaitSeconds errMsg * 1000 ≤
        waitTotal (floodWaitSeconds errMsg * 1000) jitter) ∧
    (firstDigitRun errMsg.data = none → floodWaitSeconds errMsg = 300) ∧
    (includesFloodWait errMsg = false →
      downloadChannelCatch errMsg offsetMsgId = CatchOutcome.rethrow errMsg) := by
  refine ⟨fun h => ⟨?_, ?_⟩, fun h => ?_, fun h => ?_⟩
  · simp [downloadChannelCatch, h]
  · intro jitter
    simp [waitTotal]
  · simp [floodWaitSeconds, h]
  · simp [downloadChannelCatch, h]

/-- C2 witness: the error "FLOOD_WAIT 45" triggers a 45000 ms wait and a
retry of the same page (cursor 7 unchanged). -/
theorem C2_witness :
    downloadChannelCatch "FLOOD_WAIT 45" 7 = CatchOutcome.retrySamePage 45000 7 := by
  have h := ((C2_flood_wait_recovery "FLOOD_WAIT 45" 7).1 (by decide)).1
  have hsec : floodWaitSeconds "FLOOD_WAIT 45" = 45 := by decide
  rw [hsec] at h
  exact h

/-- C3: `canDownload(m)` is true iff `m` carries a media attachment, no
file already exists at the computed target path, and the media's type or
the target path's extension is a key of the configured allow-set (or the
allow-set contains the wildcard key "all"). -/
theorem C3_eligibility (cfg : ChannelCfg) (m : Message) :
    canDownload cfg m = true ↔
      hasMedia m = true ∧
      cfg.helpers.checkFileExist m cfg.outputFolder = false ∧
      ∃ ks, cfg.downloadableFiles = some ks ∧
        (cfg.helpers.getMediaType m ∈ ks ∨
         extensionOf (cfg.helpers.getMediaPath m cfg.outputFolder) ∈ ks ∨
         "all" ∈ ks) := by
  unfold canDownload allowLookup
  cases hm : hasMedia m
  · simp
  · cases hf : cfg.downloadableFiles with
    | none => simp
    | some ks =>
      simp [Bool.not_eq_true', and_comm]
      tauto

/-- C5: `retryWithBackoff` makes at most MAX_RETRIES (3) tries; the wait
issued after the i-th failed attempt is exactly `BACKOFF_BASE * 2 ^ i` ms
(the jitter of `this.wait` comes on top), so each jitter-excluded delay is
twice the previous one; and when all three attempts fail the last error is
re-thrown unchanged. -/
theorem C5_backoff_schedule {E A : Type} (outcomes : Nat → Except E A) :
    (retryWithBackoff outcomes MAX_RETRIES).attempts ≤ MAX_RETRIES ∧
    (retryWithBackoff outcomes MAX_RETRIES).delays =
      (List.range ((retryWithBackoff outcomes MAX_RETRIES).attempts - 1)).map
        (fun k => BACKOFF_BASE * 2 ^ k) ∧
    (∀ k, k + 1 < (retryWithBackoff outcomes MAX_RETRIES).delays.length →
      (retryWithBackoff outcomes MAX_RETRIES).delays.getD (k + 1) 0 =
        2 * (retryWithBackoff outcomes MAX_RETRIES).delays.getD k 0) ∧
    (∀ e0 e1 e2, outcomes 0 = Except.error e0 → outcomes 1 = Except.error e1 →
      outcomes 2 = Except.error e2 →
      (retryWithBackoff outcomes MAX_RETRIES).result =
        some (Except.error e2)) := by
  rcases h0 : outcomes 0 with e0 | a0
  · rcases h1 : outcomes 1 with e1 | a1
    · rcases h2 : outcomes 2 with e2 | a2
      · have hres : (retryWithBackoff outcomes MAX_RETRIES).result =
            some (Except.error e2) := by
          simp [retryWithBackoff, retryFrom, MAX_RETRIES, h0, h1, h2]
        have hdel : (retryWithBackoff outcomes MAX_RETRIES).delays =
            [1000, 2000] := by
          simp [retryWithBackoff, retryFrom, MAX_RETRIES, BACKOFF_BASE, h0, h1, h2]
        have hatt : (retryWithBackoff outcomes MAX_RETRIES).attempts = 3 := by
          simp [retryWithBackoff, retryFrom, MAX_RETRIES, h0, h1, h2]
        refine ⟨by rw [hatt]; decide, by rw [hdel, hatt]; decide, ?_, ?_⟩
        · rw [hdel]
          intro k hk
          simp only [List.length_cons, List.length_nil] at hk
          have hk0 : k = 0 := by omega
          subst hk0
          decide
        · intro f0 f1 f2 hf0 hf1 hf2
          injection hf2 with he
          rw [hres, he]
      · have hdel : (retryWithBackoff outcomes MAX_RETRIES).delays =
            [1000, 2000] := by
          simp [retryWithBackoff, retryFrom, MAX_RETRIES, BACKOFF_BASE, h0, h1, h2]
        have hatt : (retryWithBackoff outcomes MAX_RETRIES).attempts = 3 := by
          simp [retryWithBackoff, retryFrom, MAX_RETRIES, h0, h1, h2]
        refine ⟨by rw [hatt]; decide, by rw [hdel, hatt]; decide, ?_, ?_⟩
        · rw [hdel]
          intro k hk
          simp only [List.length_cons, List.length_nil] at hk
          have hk0 : k = 0 := by omega
          subst hk0
          decide
        · intro f0 f1 f2 hf0 hf1 hf2
          cases hf2
    · have hdel : (retryWithBackoff outcomes MAX_RETRIES).delays = [1000] := by
        simp [retryWithBackoff, retryFrom, MAX_RETRIES, BACKOFF_BASE, h0, h1]
      have hatt : (retryWithBackoff outcomes MAX_RETRIES).attempts = 2 := by
        simp [retryWithBackoff, retryFrom, MAX_RETRIES, h0, h1]
      refine ⟨by rw [hatt]; decide, by rw [hdel, hatt]; decide, ?_, ?_⟩
      · rw [hdel]
        intro k hk
        simp only [List.length_cons, List.length_nil] at hk
        omega
      · intro f0 f1 f2 hf0 hf1 hf2
        cases hf1
  · have hdel : (retryWithBackoff outcomes MAX_RETRIES).delays = [] := by
      simp [retryWithBackoff, retryFrom, MAX_RETRIES, h0]
    have hatt : (retryWithBackoff outcomes MAX_RETRIES).attempts = 1 := by
      simp [retryWithBackoff, retryFrom, MAX_RETRIES, h0]
    refine ⟨by rw [hatt]; decide, by rw [hdel, hatt]; decide, ?_, ?_⟩
    · rw [hdel]
      intro k hk
      simp only [List.length_nil] at hk
      omega
    · intro f0 f1 f2 hf0 hf1 hf2
      cases hf0

/-- C5 witness: an operation that always throws "boom" is attempted three
times with base delays 1000 and 2000 ms and its last error is re-thrown. -/
theorem C5_witness :
    (retryWithBackoff (fun _ => (Except.error "boom" : Except String Nat))
        MAX_RETRIES).result = some (Except.error "boom") :=
  (C5_backoff_schedule (fun _ => (Except.error "boom" : Except String Nat))).2.2.2
    "boom" "boom" "boom" rfl rfl rfl

/-- C6 (amended): `checkRateLimit` suspends the caller — a 60000 ms wait,
whose `this.wait` jitter only lengthens it — exactly when more than 10
requests have been recorded since the last counter reset AND the previous
gate call was less than 60 seconds earlier; the counter is then reset
before the current request is recorded (leaving it at 1).  In every other
case the request is recorded and no wait is issued.  The counter is the
total since the last reset, not a count over the trailing 60-second
window. -/
theorem C6_gate_characterization (s : RateState) (now : Int) :
    (checkRateLimit s now =
      if s.requestCount > 10 ∧ now - s.lastRequestTime < 60000 then
        ({ requestCount := 1, lastRequestTime := now }, 60000)
      else ({ requestCount := s.requestCount + 1, lastRequestTime := now }, 0)) ∧
    (∀ jitter, 60000 ≤ waitTotal 60000 jitter) := by
  constructor
  · unfold checkRateLimit
    dsimp only
    split
    · rfl
    · rfl
  · intro jitter
    simp [waitTotal]

/-- C6 counterexample: twelve gate calls spaced 30 s apart.  At call index
11 only one earlier request lies in the trailing 60-second window (far
fewer than 10), yet the gate suspends the caller for 60000 ms instead of
returning immediately — the cumulative `requestCount` (11) exceeds 10 and
the previous call was 30 s earlier.  This refutes the claim that every
call made with at most 10 requests in the trailing window returns with no
delay. -/
theorem C6_counterexample :
    windowCount spacedTimes 11 = 1 ∧
    (gateDelays spacedTimes).getD 11 0 = 60000 := by
  constructor
  · decide
  · decide

/-- C7: for every cursor state, when the fetched page is empty the
orchestrator reports progress and returns: the trace is exactly a progress
report followed by termination — no export-log append, no cursor write, no
download task — and the counters (hence the persisted cursor state) are
untouched. -/
theorem C7_empty_page_terminates (cfg : ChannelCfg) (success : Nat → Bool)
    (t0 k0 : Nat) (details : List Message) :
    (processPage cfg success t0 k0 [] details).1 =
      [Ev.progressReport 0 0, Ev.finished] ∧
    pageEffects (processPage cfg success t0 k0 [] details).1 = [] ∧
    (processPage cfg success t0 k0 [] details).2 =
      { queue := [], totalDownloaded := t0, skippedFiles := k0,
        batchDownloaded := 0, batchSkipped := 0 } :=
  ⟨rfl, rfl, rfl⟩

/-- C8 (amended): `getMessages` and `getMessageDetail` raise their
missing-argument error immediately — for every fetch environment, i.e.
without consulting the remote client and without any retry — when the
client or channel handle (or, for detail fetches, the id list) is absent;
`downloadMessageMedia`, by contrast, does not raise on a missing argument:
it logs and returns false. -/
theorem C8_missing_arguments :
    (∀ env limit offsetId c, getMessages env false c limit offsetId =
        Except.error "Client and channelId are required") ∧
    (∀ env limit offsetId, getMessages env true none limit offsetId =
        Except.error "Client and channelId are required") ∧
    (∀ env c ids, getMessageDetail env false c (some ids) =
        Except.error "Client, channelId, and messageIds are required") ∧
    (∀ env ids, getMessageDetail env true none (some ids) =
        Except.error "Client, channelId, and messageIds are required") ∧
    (∀ env client c, getMessageDetail env client c none =
        Except.error "Client, channelId, and messageIds are required") ∧
    (∀ env m p, downloadMessageMedia env false m p = Except.ok false) ∧
    (∀ env c p, downloadMessageMedia env c none p = Except.ok false) ∧
    (∀ env c m, downloadMessageMedia env c m none = Except.ok false) := by
  refine ⟨fun env limit offsetId c => rfl, fun env limit offsetId => rfl,
    fun env c ids => rfl, fun env ids => rfl,
    fun env client c => rfl, fun env m p => rfl, ?_, ?_⟩
  · intro env c p
    cases c
    · rfl
    · rfl
  · intro env c m
    cases c
    · rfl
    · cases m with
      | none => rfl
      | some msg => rfl

/-- Concrete media environment where every effect succeeds. -/
def envAllOk : MediaEnv :=
  { writeOk := fun _ => true, downloadOk := fun _ _ => true }

/-- C8 counterexample: calling `downloadMessageMedia` with every required
argument missing returns the value false — it does not raise an error, so
the claim that all three public operations raise on missing arguments
fails on this one. -/
theorem C8_counterexample :
    downloadMessageMedia envAllOk false none none = Except.ok false := rfl

/-- C9: `downloadMessageMedia` never throws or rejects: for every effect
environment and argument combination its observable outcome is `ok b` for
some boolean `b` — missing arguments, a message without media, and a
failing download all yield `ok false`, and the success path yields
`ok true` — so a `Promise.all` join over such download tasks can never
reject because of a failed media download. -/
theorem C9_total_boolean (env : MediaEnv) (client : Bool)
    (message : Option Message) (mediaPath : Option String) :
    (∃ b, downloadMessageMedia env client message mediaPath = Except.ok b) ∧
    (message = none → downloadMessageMedia env client message mediaPath =
      Except.ok false) ∧
    (∀ msg mp, message = some msg → mediaPath = some mp → client = true →
      msg.media = none →
      downloadMessageMedia env client message mediaPath = Except.ok false) ∧
    (∀ msg mp, message = some msg → mediaPath = some mp → client = true →
      msg.media = some MediaDesc.plain → env.downloadOk msg mp = false →
      downloadMessageMedia env client message mediaPath = Except.ok false) ∧
    (∀ msg mp, message = some msg → mediaPath = some mp → client = true →
      msg.media = some MediaDesc.plain → env.downloadOk msg mp = true →
      downloadMessageMedia env client message mediaPath = Except.ok true) := by
  refine ⟨?_, ?_, ?_, ?_, ?_⟩
  · cases hb : downloadMessageMediaBody env client message mediaPath with
    | ok b => exact ⟨b, by simp [downloadMessageMedia, hb]⟩
    | error e => exact ⟨false, by simp [downloadMessageMedia, hb]⟩
  · intro hm
    subst hm
    cases client
    · rfl
    · rfl
  · intro msg mp hm hp hc hmedia
    subst hm
    subst hp
    subst hc
    simp [downloadMessageMedia, downloadMessageMediaBody, hmedia]
  · intro msg mp hm hp hc hmedia hdl
    subst hm
    subst hp
    subst hc
    simp [downloadMessageMedia, downloadMessageMediaBody, hmedia, hdl]
  · intro msg mp hm hp hc hmedia hdl
    subst hm
    subst hp
    subst hc
    simp [downloadMessageMedia, downloadMessageMediaBody, hmedia, hdl]

/-- Concrete media environment whose download transport always fails. -/
def envDownFail : MediaEnv :=
  { writeOk := fun _ => true, downloadOk := fun _ _ => false }

/-- C9 witness: a failing download of a plain media message yields the
value false rather than an error. -/
theorem C9_witness :
    downloadMessageMedia envDownFail true
        (some { id := 9, media := some MediaDesc.plain }) (some "out/9.jpg") =
      Except.ok false := by
  have h := C9_total_boolean envDownFail true
    (some { id := 9, media := some MediaDesc.plain }) (some "out/9.jpg")
  exact h.2.2.2.1 { id := 9, media := some MediaDesc.plain } "out/9.jpg"
    rfl rfl rfl rfl rfl

/-- C1: for every page processed by `downloadChannel`, the export-log
append (`recordMessages`) and the cursor persistence
(`updateLastSelection`) happen strictly after every download task of the
page has settled — the trace splits as `pre ++ [record, persist, ...]`
with the started and settled task ids of `pre` coinciding — and the
persisted cursor equals the id of the last message in the page. -/
theorem C1_cursor_after_settlement (cfg : ChannelCfg) (success : Nat → Bool)
    (t0 k0 : Nat) (messages details : List Message) (h : messages ≠ []) :
    ∃ pre mlast b k,
      (processPage cfg success t0 k0 messages details).1 =
        pre ++ [Ev.recordMessages (details.map Message.id),
                Ev.persistCursor mlast.id,
                Ev.progressReport b k,
                Ev.sleep RATE_LIMIT_DELAY,
                Ev.recurse mlast.id] ∧
      messages.getLast? = some mlast ∧
      settledIds pre = startedIds pre := by
  have hlen : ¬ messages.length = 0 := by simpa [List.length_eq_zero] using h
  have hlast : messages.getLast? = some (messages.getLast h) :=
    List.getLast?_eq_getLast messages h
  have hmid : lastMsgId messages = (messages.getLast h).id := by
    simp [lastMsgId, hlast]
  refine ⟨(procLoop cfg success details (startState t0 k0)).1 ++
      (finalFlush success (procLoop cfg success details (startState t0 k0)).2).1,
    messages.getLast h,
    (finalFlush success
      (procLoop cfg success details (startState t0 k0)).2).2.batchDownloaded,
    (finalFlush success
      (procLoop cfg success details (startState t0 k0)).2).2.batchSkipped,
    ?_, hlast, ?_⟩
  · simp only [processPage, if_neg hlen, hmid, List.append_assoc]
  · have hids := procLoop_ids cfg success details (startState t0 k0)
    obtain ⟨hf1, hf2, hf3, hf4, hf5, hf6, hf7⟩ :=
      finalFlush_spec success (procLoop cfg success details (startState t0 k0)).2
    rw [settledIds_append, startedIds_append, hf1, hf2, List.append_nil]
    simpa [startState] using hids

/-- Helper environment and configuration for concrete witnesses: every
message is a photo whose target file does not exist yet, and photos are in
the allow-set. -/
def helperPhoto : HelperEnv :=
  { getMediaType := fun _ => "photo"
    getMediaPath := fun m _ => "export/ch/" ++ toString m.id ++ ".jpg"
    checkFileExist := fun _ _ => false }

def cfgPhoto : ChannelCfg :=
  { helpers := helperPhoto, outputFolder := "export/ch"
    downloadableFiles := some ["photo"] }

def msgOne : Message := { id := 1, media := some MediaDesc.plain }

/-- C1 witness: a one-message page; the record/persist tail follows a
prefix whose started and settled tasks agree, and the cursor is message 1. -/
theorem C1_witness :
    ∃ pre mlast b k,
      (processPage cfgPhoto (fun _ => true) 0 0 [msgOne] [msgOne]).1 =
        pre ++ [Ev.recordMessages ([msgOne].map Message.id),
                Ev.persistCursor mlast.id,
                Ev.progressReport b k,
                Ev.sleep RATE_LIMIT_DELAY,
                Ev.recurse mlast.id] ∧
      [msgOne].getLast? = some mlast ∧
      settledIds pre = startedIds pre :=
  C1_cursor_after_settlement cfgPhoto (fun _ => true) 0 0 [msgOne] [msgOne]
    (by decide)

/-- C4: no more than MAX_PARALLEL_DOWNLOAD (12) download tasks are in
flight at any point of a page trace, and batches are strict barriers: the
task events form a well-scheduled trace (`Sched`) in which tasks settle
only as whole-queue flushes, so no task of batch K+1 starts before every
task of batch K settled; the scheduler flushes exactly when the queue
reaches 12 entries and then sleeps RATE_LIMIT_DELAY (1000 ms). -/
theorem C4_bound_and_barrier (cfg : ChannelCfg) (success : Nat → Bool)
    (t0 k0 : Nat) (messages details : List Message) :
    Sched [] [] (taskEvs (processPage cfg success t0 k0 messages details).1) ∧
    (∀ p r, (processPage cfg success t0 k0 messages details).1 = p ++ r →
      countStartsT (taskEvs p) ≤
        countSettlesT (taskEvs p) + MAX_PARALLEL_DOWNLOAD) ∧
    (∀ s, MAX_PARALLEL_DOWNLOAD ≤ s.queue.length →
      flushPhase success s =
        (settleEvents success s.queue ++ [Ev.sleep RATE_LIMIT_DELAY],
         flushState s)) := by
  have hmain :
      Sched [] [] (taskEvs (processPage cfg success t0 k0 messages details).1) := by
    by_cases hlen : messages.length = 0
    · simp only [processPage, if_pos hlen, taskEvs]
      exact Sched.done [] (by decide)
    · obtain ⟨hs, hq⟩ := procLoop_sched cfg success details (startState t0 k0)
        (by simp [startState, MAX_PARALLEL_DOWNLOAD])
      obtain ⟨hf1, hf2, hf3, hf4, hf5, hf6, hf7⟩ :=
        finalFlush_spec success (procLoop cfg success details (startState t0 k0)).2
      have htail : taskEvs
          [Ev.recordMessages (details.map Message.id),
           Ev.persistCursor (lastMsgId messages),
           Ev.progressReport
             (finalFlush success
               (procLoop cfg success details (startState t0 k0)).2).2.batchDownloaded
             (finalFlush success
               (procLoop cfg success details (startState t0 k0)).2).2.batchSkipped,
           Ev.sleep RATE_LIMIT_DELAY,
           Ev.recurse (lastMsgId messages)] = [] := rfl
      simp only [processPage, if_neg hlen, taskEvs_append, hf3, htail,
        List.append_nil]
      have hflush : Sched (procLoop cfg success details (startState t0 k0)).2.queue
          [] ((procLoop cfg success details (startState t0 k0)).2.queue.map
              TEv.settle) := by
        have := Sched.flush
          (procLoop cfg success details (startState t0 k0)).2.queue [] []
          (Nat.le_of_lt hq) (Sched.done [] (by decide))
        simpa using this
      have hstart : Sched [] (procLoop cfg success details (startState t0 k0)).2.queue
          (taskEvs (procLoop cfg success details (startState t0 k0)).1) := by
        simpa [startState] using hs
      exact sched_append hstart hflush
  refine ⟨hmain, ?_, ?_⟩
  · intro p r hpr
    have hsplit : taskEvs (processPage cfg success t0 k0 messages details).1 =
        taskEvs p ++ taskEvs r := by
      rw [hpr, taskEvs_append]
    have hb := sched_bound hmain (taskEvs p) (taskEvs r) hsplit
    simpa using hb.1
  · intro s hs
    simp [flushPhase, hs]

/-- C4 witness: the concurrency bound evaluated on a concrete one-message
page trace, taking the whole trace as the prefix. -/
theorem C4_witness :
    countStartsT
        (taskEvs (processPage cfgPhoto (fun _ => true) 0 0 [msgOne] [msgOne]).1) ≤
      countSettlesT
        (taskEvs (processPage cfgPhoto (fun _ => true) 0 0 [msgOne] [msgOne]).1) +
        MAX_PARALLEL_DOWNLOAD :=
  (C4_bound_and_barrier cfgPhoto (fun _ => true) 0 0 [msgOne] [msgOne]).2.1
    (processPage cfgPhoto (fun _ => true) 0 0 [msgOne] [msgOne]).1 []
    (List.append_nil _).symm

/-- C10: for every message passing the eligibility filter, once its task
settles the instance counter `totalDownloaded` and the batch counter are
each incremented exactly once, for every possible download outcome
(`success`): the final counters depend only on the number of eligible
messages, each eligible message starts exactly one task (no retry), and
every started task settles exactly once; a failed download is therefore
counted as downloaded and never recorded as failed. -/
theorem C10_failed_counted_as_downloaded (cfg : ChannelCfg)
    (success : Nat → Bool) (t0 k0 : Nat) (messages details : List Message)
    (h : messages ≠ []) :
    (processPage cfg success t0 k0 messages details).2.totalDownloaded =
        t0 + (details.filter (fun m => canDownload cfg m)).length ∧
    (processPage cfg success t0 k0 messages details).2.batchDownloaded =
        (details.filter (fun m => canDownload cfg m)).length ∧
    startedIds (processPage cfg success t0 k0 messages details).1 =
      (details.filter (fun m => canDownload cfg m)).map Message.id ∧
    settledIds (processPage cfg success t0 k0 messages details).1 =
      startedIds (processPage cfg success t0 k0 messages details).1 := by
  have hlen : ¬ messages.length = 0 := by simpa [List.length_eq_zero] using h
  obtain ⟨hc1, hc2⟩ := procLoop_counters cfg success details (startState t0 k0)
  have hids := procLoop_ids cfg success details (startState t0 k0)
  have hst := procLoop_starts cfg success details (startState t0 k0)
  obtain ⟨hf1, hf2, hf3, hf4, hf5, hf6, hf7⟩ :=
    finalFlush_spec success (procLoop cfg success details (startState t0 k0)).2
  have hcount : (startedIds (procLoop cfg success details (startState t0 k0)).1).length =
      (details.filter (fun m => canDownload cfg m)).length := by
    rw [hst, List.length_map]
  have htail5 : startedIds
      [Ev.recordMessages (details.map Message.id),
       Ev.persistCursor (lastMsgId messages),
       Ev.progressReport
         (finalFlush success
           (procLoop cfg success details (startState t0 k0)).2).2.batchDownloaded
         (finalFlush success
           (procLoop cfg success details (startState t0 k0)).2).2.batchSkipped,
       Ev.sleep RATE_LIMIT_DELAY,
       Ev.recurse (lastMsgId messages)] = [] := rfl
  have htail6 : settledIds
      [Ev.recordMessages (details.map Message.id),
       Ev.persistCursor (lastMsgId messages),
       Ev.progressReport
         (finalFlush success
           (procLoop cfg success details (startState t0 k0)).2).2.batchDownloaded
         (finalFlush success
           (procLoop cfg success details (startState t0 k0)).2).2.batchSkipped,
       Ev.sleep RATE_LIMIT_DELAY,
       Ev.recurse (lastMsgId messages)] = [] := rfl
  simp only [processPage, if_neg hlen, startedIds_append, settledIds_append,
    hf1, hf2, htail5, htail6, List.append_nil]
  simp only [startState, List.length_nil] at hc1 hc2 hids hst hcount hf5 hf6 ⊢
  refine ⟨?_, ?_, hst, ?_⟩
  · rw [hf5, hcount.symm]
    omega
  · rw [hf6, hcount.symm]
    omega
  · simpa using hids

/-- C10 witness: starting from totalDownloaded = 3, one eligible message
yields totalDownloaded = 4 and batch counter 1, for the always-failing
download outcome. -/
theorem C10_witness :
    (processPage cfgPhoto (fun _ => false) 3 0 [msgOne] [msgOne]).2.totalDownloaded =
        3 + ([msgOne].filter (fun m => canDownload cfgPhoto m)).length ∧
    (processPage cfgPhoto (fun _ => false) 3 0 [msgOne] [msgOne]).2.batchDownloaded =
        ([msgOne].filter (fun m => canDownload cfgPhoto m)).length ∧
    startedIds (processPage cfgPhoto (fun _ => false) 3 0 [msgOne] [msgOne]).1 =
      ([msgOne].filter (fun m => canDownload cfgPhoto m)).map Message.id ∧
    settledIds (processPage cfgPhoto (fun _ => false) 3 0 [msgOne] [msgOne]).1 =
      startedIds (processPage cfgPhoto (fun _ => false) 3 0 [msgOne] [msgOne]).1 :=
  C10_failed_counted_as_downloaded cfgPhoto (fun _ => false) 3 0 [msgOne] [msgOne]
    (by decide)

end TgDl
